import Mathlib

/-!
Verification of the tracing-bridge adapter (src/src/lib.rs).

The crate converts `tracing_core` event/metadata handles into owned,
serializable snapshot values (`TracingEvent`, `TracingMetadata`) and converts
the two small enumerations (`TracingLevel`, `TracingCallsiteKind`) back into
the facility's native enumerations.

The external `tracing_core` types consumed by the crate are embedded here just
deeply enough to express the crate's behaviour:
  * `tracing_core::metadata::Kind` is a bit set over an event bit, a span bit
    and a hint bit, publicly constructible only as `EVENT`, `SPAN`, `HINT`, or
    by or-ing the hint bit onto an existing kind (`Kind::hint`);
  * `tracing_core::Level` is a closed five-variant enumeration;
  * a metadata handle exposes `name`, `target`, `level`, `module_path`,
    `file`, `line` and the kind predicates `is_event` / `is_span`;
  * an event handle exposes its metadata and, through `Event::record`, visits
    each attached field once, in order, passing the field's declared name and
    its value as an opaque `dyn Debug` object; the only observation the
    visitor makes of that object is its `format!` debug rendering, so a field
    value is embedded as the text that rendering produces.

A Rust `panic!` is modelled as `Option.none`; `HashMap String String` is
modelled as `Finmap` over `String` keys, whose equality is exactly Rust's
content (order-insensitive) equality of hash maps.
-/

namespace TracingBridge

/-- Model of `tracing_core::metadata::Kind`: a set of three bits. -/
structure Kind where
  eventBit : Bool
  spanBit : Bool
  hintBit : Bool
deriving DecidableEq

/-- The `Kind::EVENT` constant. -/
def Kind.EVENT : Kind := ⟨true, false, false⟩

/-- The `Kind::SPAN` constant. -/
def Kind.SPAN : Kind := ⟨false, true, false⟩

/-- The `Kind::HINT` constant. -/
def Kind.HINT : Kind := ⟨false, false, true⟩

/-- The `Kind::hint` combinator: or-s the hint bit onto a kind. -/
def Kind.hint (k : Kind) : Kind := ⟨k.eventBit, k.spanBit, true⟩

/-- The `Kind::is_event` predicate: tests the event bit. -/
def Kind.is_event (k : Kind) : Bool := k.eventBit

/-- The `Kind::is_span` predicate: tests the span bit. -/
def Kind.is_span (k : Kind) : Bool := k.spanBit

/-- The kinds constructible through `tracing_core`'s public API: the three
constants and hint-tagging of an existing kind. Every metadata handle carries
such a kind. -/
inductive Kind.Constructible : Kind → Prop
  | event : Kind.Constructible Kind.EVENT
  | span : Kind.Constructible Kind.SPAN
  | hint : Kind.Constructible Kind.HINT
  | hinted (k : Kind) : Kind.Constructible k → Kind.Constructible k.hint

/-- Model of `tracing_core::Level`: the facility's native closed five-variant
level enumeration. -/
inductive CoreLevel
  | TRACE
  | DEBUG
  | INFO
  | WARN
  | ERROR
deriving DecidableEq, Fintype

/-- Model of `std::path::PathBuf`: an owned file-system path, carrying the
string it was converted from. -/
structure PathBuf where
  path : String
deriving DecidableEq

/-- The `impl From<&str> for PathBuf` conversion used by `file.into()`. -/
def PathBuf.fromString (s : String) : PathBuf := ⟨s⟩

/-- Model of a `tracing_core::Metadata` handle: the fields the adapter reads. -/
structure CoreMetadata where
  name : String
  target : String
  level : CoreLevel
  module_path : Option String
  file : Option String
  line : Option Nat
  kind : Kind
deriving DecidableEq

/-- Model of a `&dyn Debug` field value at the adapter's boundary: the only
observation the adapter makes of it is its debug rendering, so the model
carries exactly that rendered text. -/
structure DebugValue where
  rendered : String
deriving DecidableEq

/-- The `format!` debug rendering of a field value. -/
def format_debug (v : DebugValue) : String := v.rendered

/-- Model of a `tracing_core::Event` handle: its metadata and the sequence of
`(declared field name, field value)` pairs that `Event::record` visits, in
visit order. -/
structure CoreEvent where
  metadata : CoreMetadata
  fields : List (String × DebugValue)

/-- The snapshot verbosity level enumeration `TracingLevel` (lib.rs 91-113),
variants in declaration order. -/
inductive TracingLevel
  | Trace
  | Debug
  | Info
  | Warn
  | Error
deriving DecidableEq, Fintype

/-- The derive list on `TracingLevel` (lib.rs line 91), verbatim. -/
def TracingLevel.derives : List String :=
  ["Debug", "Serialize", "Deserialize", "Hash", "Eq", "PartialEq"]

/-- Declaration index of a `TracingLevel` variant (the order the variants are
declared in, which is also the discriminant a derived order would use). -/
def TracingLevel.idx : TracingLevel → Nat
  | .Trace => 0
  | .Debug => 1
  | .Info => 2
  | .Warn => 3
  | .Error => 4

/-- The `impl From<&tracing_core::Level> for TracingLevel` match (lib.rs
115-125). -/
def TracingLevel.fromCore : CoreLevel → TracingLevel
  | .TRACE => .Trace
  | .DEBUG => .Debug
  | .INFO => .Info
  | .WARN => .Warn
  | .ERROR => .Error

/-- The `impl Into<tracing_core::Level> for &TracingLevel` match (lib.rs
127-137). -/
def TracingLevel.intoCore : TracingLevel → CoreLevel
  | .Trace => .TRACE
  | .Debug => .DEBUG
  | .Info => .INFO
  | .Warn => .WARN
  | .Error => .ERROR

/-- The snapshot callsite kind enumeration `TracingCallsiteKind` (lib.rs
139-143). -/
inductive TracingCallsiteKind
  | Event
  | Span
deriving DecidableEq, Fintype

/-- The `impl Into<tracing_core::metadata::Kind> for &TracingCallsiteKind`
match (lib.rs 145-152): exhaustive over the two variants, no default arm. -/
def TracingCallsiteKind.intoCore : TracingCallsiteKind → Kind
  | .Event => Kind.EVENT
  | .Span => Kind.SPAN

/-- The snapshot metadata record `TracingMetadata` (lib.rs 41-67). -/
structure TracingMetadata where
  name : String
  target : String
  level : TracingLevel
  module_path : Option String
  file : Option PathBuf
  line : Option Nat
  kind : TracingCallsiteKind
deriving DecidableEq

/-- The derive list on `TracingMetadata` (lib.rs line 41), verbatim. -/
def TracingMetadata.derives : List String :=
  ["Debug", "Serialize", "Deserialize", "Hash", "Eq", "PartialEq"]

/-- The `impl From<&tracing_core::Metadata> for TracingMetadata` conversion
(lib.rs 69-89). The `panic!` on an unknown callsite kind is modelled as
`none`; every other path returns `some`. -/
def TracingMetadata.fromCore (metadata : CoreMetadata) : Option TracingMetadata :=
  (if metadata.kind.is_event then some TracingCallsiteKind.Event
   else if metadata.kind.is_span then some TracingCallsiteKind.Span
   else none).map fun kind =>
    { name := metadata.name
      target := metadata.target
      level := TracingLevel.fromCore metadata.level
      module_path := metadata.module_path
      file := metadata.file.map PathBuf.fromString
      line := metadata.line
      kind := kind }

/-- Model of `HashMap String String`: a finite map whose equality is
content equality, insertion order not significant. -/
abbrev FieldMap : Type := Finmap fun _ : String => String

/-- The `TracingMetadataFields` visitor state together with its
`fields_from_event` body (lib.rs 16-28): starting from the empty map, each
visited field performs `record_debug`, i.e.
`fields.insert(field.name().to_owned(), format!(value))`. -/
def TracingMetadataFields.fields_from_event
    (fields : List (String × DebugValue)) : FieldMap :=
  fields.foldl (fun m p => m.insert p.1 (format_debug p.2)) ∅

/-- The event snapshot `TracingEvent` (lib.rs 5-9). -/
structure TracingEvent where
  metadata : TracingMetadata
  fields : FieldMap
deriving DecidableEq

/-- The derive list on `TracingEvent` (lib.rs line 5), verbatim. -/
def TracingEvent.derives : List String :=
  ["Debug", "Serialize", "Deserialize", "Eq", "PartialEq"]

/-- The `impl From<&tracing_core::Event> for TracingEvent` conversion (lib.rs
30-39): extract the fields, convert the event's metadata, compose. The
inherited kind-resolution `panic!` is the only `none` path. -/
def TracingEvent.fromCore (event : CoreEvent) : Option TracingEvent :=
  (TracingMetadata.fromCore event.metadata).map fun m =>
    { metadata := m
      fields := TracingMetadataFields.fields_from_event event.fields }

/-- The debug rendering of the value carried by the LAST visit (in visit
order) whose declared name is `k`, or `none` when no visit carries that
name. -/
def lastVisited (k : String) (l : List (String × DebugValue)) : Option String :=
  (l.reverse.find? fun p => p.1 == k).map fun p => format_debug p.2

/-- Concrete metadata handle of an event callsite, used to instantiate the
universally quantified theorems below. -/
def mdEvent : CoreMetadata :=
  { name := "req_start"
    target := "svc::http"
    level := CoreLevel.INFO
    module_path := some "svc::http::handler"
    file := some "handler.rs"
    line := some 42
    kind := Kind.EVENT }

/-- Concrete metadata handle of a span callsite. -/
def mdSpan : CoreMetadata :=
  { name := "req_span"
    target := "svc::http"
    level := CoreLevel.DEBUG
    module_path := none
    file := none
    line := none
    kind := Kind.SPAN }

/-- Concrete event handle with two distinctly named fields. -/
def evExample : CoreEvent :=
  { metadata := mdEvent
    fields := [("path", ⟨"\"/users\""⟩), ("method", ⟨"\"GET\""⟩)] }

end TracingBridge

namespace TracingBridge

/-- Claim C2: for each of the five snapshot verbosity level variants,
converting to the facility's native level and back yields the original
variant; and for each of the five native levels, converting to the snapshot
variant and back yields the original native level — the mapping is total and
lossless in both directions. -/
theorem level_round_trip :
    (∀ l : TracingLevel, TracingLevel.fromCore (TracingLevel.intoCore l) = l) ∧
    (∀ l : CoreLevel, TracingLevel.intoCore (TracingLevel.fromCore l) = l) := by
  constructor <;> intro l <;> cases l <;> rfl

/-- Claim C8: the conversion from the snapshot kind enumeration to the
facility's native kind is a total function mapping `Event` to `Kind::EVENT`
and `Span` to `Kind::SPAN`; the two images are distinct, so the mapping is
injective (no two variants collapse, no fallback value). -/
theorem callsite_kind_reverse_mapping :
    TracingCallsiteKind.intoCore TracingCallsiteKind.Event = Kind.EVENT ∧
    TracingCallsiteKind.intoCore TracingCallsiteKind.Span = Kind.SPAN ∧
    Kind.EVENT ≠ Kind.SPAN ∧
    Function.Injective TracingCallsiteKind.intoCore := by
  refine ⟨rfl, rfl, by decide, ?_⟩
  intro a b h
  cases a <;> cases b <;> first | rfl | exact absurd h (by decide)

/-- Claim C6 counterexample: the `derive` list on `TracingLevel` (lib.rs line
91) contains neither `PartialOrd` nor `Ord`, and lib.rs contains no manual
`impl` of either trait, so the snapshot level type carries no order relation
in the code. -/
theorem level_order_not_derived :
    "PartialOrd" ∉ TracingLevel.derives ∧ "Ord" ∉ TracingLevel.derives := by
  decide

/-- Claim C6 (amended): `TracingLevel` is a closed enumeration with exactly
five variants, declared in severity order — the declaration index is strictly
increasing along Trace, Debug, Info, Warn, Error, with Trace's index least
and Error's index greatest — but the code derives no order relation on the
type. -/
theorem level_five_variants_severity_order :
    Fintype.card TracingLevel = 5 ∧
    (TracingLevel.idx TracingLevel.Trace < TracingLevel.idx TracingLevel.Debug ∧
     TracingLevel.idx TracingLevel.Debug < TracingLevel.idx TracingLevel.Info ∧
     TracingLevel.idx TracingLevel.Info < TracingLevel.idx TracingLevel.Warn ∧
     TracingLevel.idx TracingLevel.Warn < TracingLevel.idx TracingLevel.Error) ∧
    (∀ l : TracingLevel,
      TracingLevel.idx TracingLevel.Trace ≤ TracingLevel.idx l ∧
      TracingLevel.idx l ≤ TracingLevel.idx TracingLevel.Error) := by
  decide

/-- Claim C5 counterexample: the `derive` list on `TracingEvent` (lib.rs line
5) does not contain `Hash` (and lib.rs contains no manual `impl Hash`), so
event snapshots have no hashing at all — structural or otherwise. Only the
metadata type derives `Hash`. -/
theorem event_hash_not_derived :
    "Hash" ∉ TracingEvent.derives ∧ "Hash" ∈ TracingMetadata.derives := by
  decide

/-- Claim C5 (amended): equality of event snapshots is structural — two
`TracingEvent` values are equal iff their metadata are equal and their field
maps hold the same entries (lookup agrees at every key; insertion order not
significant) — so changing any single field value, field name, or metadata
attribute breaks equality; the event snapshot type itself derives no hash
implementation (its metadata type does, structurally, via `derive(Hash)`). -/
theorem event_structural_equality (e₁ e₂ : TracingEvent) :
    e₁ = e₂ ↔
      e₁.metadata = e₂.metadata ∧ ∀ k, e₁.fields.lookup k = e₂.fields.lookup k := by
  constructor
  · rintro rfl
    exact ⟨rfl, fun _ => rfl⟩
  · rintro ⟨hm, hf⟩
    cases e₁
    cases e₂
    cases hm
    congr 1
    exact Finmap.ext_lookup hf

/-- Tagging the hint bit onto a kind changes neither `is_event` nor
`is_span`, so along the `Constructible` derivation the two predicates are
never both true. -/
lemma constructible_not_both {k : Kind} (h : Kind.Constructible k) :
    ¬(k.is_event = true ∧ k.is_span = true) := by
  induction h with
  | event => decide
  | span => decide
  | hint => decide
  | hinted k hk ih => exact fun hc => ih hc

/-- Unfolding of the metadata conversion on any handle whose kind resolves:
the result is `some` of the record the source builds, with the kind chosen by
the `is_event`-then-`is_span` cascade. -/
lemma fromCore_resolves (md : CoreMetadata)
    (h : md.kind.is_event = true ∨ md.kind.is_span = true) :
    TracingMetadata.fromCore md = some
      { name := md.name
        target := md.target
        level := TracingLevel.fromCore md.level
        module_path := md.module_path
        file := md.file.map PathBuf.fromString
        line := md.line
        kind := if md.kind.is_event then TracingCallsiteKind.Event
                else TracingCallsiteKind.Span } := by
  unfold TracingMetadata.fromCore
  cases he : md.kind.is_event with
  | true => simp
  | false =>
    rcases h with h | h
    · rw [he] at h
      exact absurd h (by simp)
    · simp [h]

/-- The metadata conversion succeeds exactly when one of the two kind
predicates holds. -/
lemma fromCore_isSome (md : CoreMetadata) :
    (TracingMetadata.fromCore md).isSome = (md.kind.is_event || md.kind.is_span) := by
  unfold TracingMetadata.fromCore
  cases he : md.kind.is_event <;> cases hs : md.kind.is_span <;> simp [he, hs]

/-- Claim C1: the converter queries `is_event` then `is_span`; a handle
reporting `is_event` = true yields kind `Event`, a handle reporting `is_span`
= true yields kind `Span` (the two predicates are never both true for a kind
constructible through the facility's public API), and a handle reporting both
predicates false hits the `panic!` path — modelled as `none`, never a normal
`some` return. -/
theorem kind_resolution (md : CoreMetadata) (h : Kind.Constructible md.kind) :
    (md.kind.is_event = true →
      ∃ m, TracingMetadata.fromCore md = some m ∧
        m.kind = TracingCallsiteKind.Event) ∧
    (md.kind.is_span = true →
      ∃ m, TracingMetadata.fromCore md = some m ∧
        m.kind = TracingCallsiteKind.Span) ∧
    (md.kind.is_event = false → md.kind.is_span = false →
      TracingMetadata.fromCore md = none) := by
  refine ⟨?_, ?_, ?_⟩
  · intro he
    exact ⟨_, fromCore_resolves md (Or.inl he), by simp [he]⟩
  · intro hs
    have he : md.kind.is_event = false := by
      cases hev : md.kind.is_event
      · rfl
      · exact absurd ⟨hev, hs⟩ (constructible_not_both h)
    exact ⟨_, fromCore_resolves md (Or.inr hs), by simp [he]⟩
  · intro he hs
    simp [TracingMetadata.fromCore, he, hs]

/-- Claim C1 witness: instantiated at a concrete event-kind metadata handle,
whose kind `Kind.EVENT` is publicly constructible. -/
theorem kind_resolution_witness :
    Kind.Constructible mdEvent.kind ∧
    ((mdEvent.kind.is_event = true →
        ∃ m, TracingMetadata.fromCore mdEvent = some m ∧
          m.kind = TracingCallsiteKind.Event) ∧
      (mdEvent.kind.is_span = true →
        ∃ m, TracingMetadata.fromCore mdEvent = some m ∧
          m.kind = TracingCallsiteKind.Span) ∧
      (mdEvent.kind.is_event = false → mdEvent.kind.is_span = false →
        TracingMetadata.fromCore mdEvent = none)) :=
  ⟨Kind.Constructible.event, kind_resolution mdEvent Kind.Constructible.event⟩

/-- Claim C4: for every metadata handle whose kind resolves, the produced
snapshot copies `name` and `target` verbatim, converts `level` through the
verbosity level mapping, and copies `module_path`, `file` and `line` with
presence preserved exactly (`file` converted to a file-system path when
present). -/
theorem metadata_fidelity (md : CoreMetadata)
    (h : md.kind.is_event = true ∨ md.kind.is_span = true) :
    ∃ m, TracingMetadata.fromCore md = some m ∧
      m.name = md.name ∧
      m.target = md.target ∧
      m.level = TracingLevel.fromCore md.level ∧
      m.module_path = md.module_path ∧
      m.file = md.file.map PathBuf.fromString ∧
      m.line = md.line :=
  ⟨_, fromCore_resolves md h, rfl, rfl, rfl, rfl, rfl, rfl⟩

/-- Claim C4 witness: instantiated at a concrete span-kind metadata handle
with `module_path`, `file` and `line` all absent. -/
theorem metadata_fidelity_witness :
    (mdSpan.kind.is_event = true ∨ mdSpan.kind.is_span = true) ∧
    (∃ m, TracingMetadata.fromCore mdSpan = some m ∧
      m.name = mdSpan.name ∧
      m.target = mdSpan.target ∧
      m.level = TracingLevel.fromCore mdSpan.level ∧
      m.module_path = mdSpan.module_path ∧
      m.file = mdSpan.file.map PathBuf.fromString ∧
      m.line = mdSpan.line) :=
  ⟨Or.inr rfl, metadata_fidelity mdSpan (Or.inr rfl)⟩

/-- Claim C7: for every event handle whose metadata kind resolves, the full
conversion succeeds, and the resulting snapshot is exactly the composition of
the metadata conversion applied to the event's metadata handle with the field
extractor's mapping for the event's fields. -/
theorem event_snapshot_composition (ev : CoreEvent)
    (h : ev.metadata.kind.is_event = true ∨ ev.metadata.kind.is_span = true) :
    ∃ m, TracingMetadata.fromCore ev.metadata = some m ∧
      TracingEvent.fromCore ev = some
        { metadata := m
          fields := TracingMetadataFields.fields_from_event ev.fields } :=
  ⟨_, fromCore_resolves ev.metadata h, by
    simp [TracingEvent.fromCore, fromCore_resolves ev.metadata h]⟩

/-- Claim C7 witness: instantiated at a concrete two-field event handle. -/
theorem event_snapshot_composition_witness :
    (evExample.metadata.kind.is_event = true ∨
      evExample.metadata.kind.is_span = true) ∧
    (∃ m, TracingMetadata.fromCore evExample.metadata = some m ∧
      TracingEvent.fromCore evExample = some
        { metadata := m
          fields := TracingMetadataFields.fields_from_event evExample.fields }) :=
  ⟨Or.inl rfl, event_snapshot_composition evExample (Or.inl rfl)⟩

/-- Claim C9: the only failing path of the whole adapter is kind resolution —
the metadata conversion returns `some` exactly when a kind predicate holds,
and the event conversion inherits exactly that condition, so snapshotting a
well-formed event never fails; every other operation (field extraction,
string/path/line copying, both enumeration mappings) is a plain total
function in this embedding, with no error channel at all. -/
theorem totality_outside_kind_resolution :
    (∀ md : CoreMetadata,
      (TracingMetadata.fromCore md).isSome =
        (md.kind.is_event || md.kind.is_span)) ∧
    (∀ ev : CoreEvent,
      (TracingEvent.fromCore ev).isSome =
        (ev.metadata.kind.is_event || ev.metadata.kind.is_span)) := by
  refine ⟨fromCore_isSome, ?_⟩
  intro ev
  rw [← fromCore_isSome]
  unfold TracingEvent.fromCore
  cases TracingMetadata.fromCore ev.metadata <;> rfl

/-- Lookup in a map obtained by folding the visitor's insert over the visit
list: the last visit carrying the key wins, and a key never visited falls
through to the initial map. -/
lemma lookup_foldl_insert (l : List (String × DebugValue)) (m : FieldMap) (k : String) :
    (l.foldl (fun m p => m.insert p.1 (format_debug p.2)) m).lookup k
      = (lastVisited k l).or (m.lookup k) := by
  induction l generalizing m with
  | nil => simp [lastVisited]
  | cons p l ih =>
    rw [List.foldl_cons, ih]
    unfold lastVisited
    rw [List.reverse_cons, List.find?_append]
    cases hfind : l.reverse.find? fun q => q.1 == k with
    | some q => simp [lastVisited, hfind]
    | none =>
      simp only [lastVisited, hfind, Option.map_none, Option.none_or]
      by_cases hk : p.1 = k
      · subst hk
        simp [List.find?]
      · have hne : (p.1 == k) = false := by simpa using hk
        simp [List.find?, hne, Finmap.lookup_insert_of_ne _ (Ne.symm hk)]

/-- Lookup in the extracted field map is exactly the last-visited rendering
for the key. -/
lemma lookup_fields_from_event (l : List (String × DebugValue)) (k : String) :
    (TracingMetadataFields.fields_from_event l).lookup k = lastVisited k l := by
  rw [TracingMetadataFields.fields_from_event, lookup_foldl_insert]
  simp

/-- The key set of the extracted field map is the set of visited names. -/
lemma keys_fields_from_event (l : List (String × DebugValue)) :
    (TracingMetadataFields.fields_from_event l).keys = (l.map Prod.fst).toFinset := by
  ext k
  rw [Finmap.mem_keys, ← Finmap.lookup_isSome, lookup_fields_from_event,
    List.mem_toFinset]
  simp [lastVisited]

/-- With pairwise distinct names, the last (indeed only) visit carrying a
listed pair's name is that pair itself. -/
lemma find_last_of_nodup (l : List (String × DebugValue))
    (h : (l.map Prod.fst).Nodup) (p : String × DebugValue) (hp : p ∈ l) :
    l.reverse.find? (fun r => r.1 == p.1) = some p := by
  induction l with
  | nil => cases hp
  | cons q l ih =>
    rw [List.map_cons, List.nodup_cons] at h
    rw [List.reverse_cons, List.find?_append]
    rcases List.mem_cons.mp hp with rfl | hp'
    · have hnone : (l.reverse.find? fun r => r.1 == p.1) = none := by
        rw [List.find?_eq_none]
        intro x hx
        simp only [beq_iff_eq]
        intro hxe
        exact h.1 (hxe ▸ List.mem_map_of_mem Prod.fst (List.mem_reverse.mp hx))
      rw [hnone]
      simp [List.find?]
    · rw [ih h.2 hp']
      rfl

/-- Claim C3: for an event visiting N fields with pairwise distinct names,
the extracted mapping has exactly N entries, each keyed by the field's
declared name and valued by the debug rendering of that field's value (so no
field is skipped or visited twice), and an event with zero fields yields the
empty — not absent — mapping. -/
theorem field_extraction_totality (l : List (String × DebugValue))
    (h : (l.map Prod.fst).Nodup) :
    (TracingMetadataFields.fields_from_event l).keys.card = l.length ∧
    (∀ p ∈ l, (TracingMetadataFields.fields_from_event l).lookup p.1
        = some (format_debug p.2)) ∧
    TracingMetadataFields.fields_from_event [] = (∅ : FieldMap) := by
  refine ⟨?_, ?_, rfl⟩
  · rw [keys_fields_from_event, List.toFinset_card_of_nodup h, List.length_map]
  · intro p hp
    rw [lookup_fields_from_event, lastVisited, find_last_of_nodup l h p hp]
    rfl

/-- Claim C3 witness: instantiated at the concrete two-field event, whose
field names are distinct. -/
theorem field_extraction_totality_witness :
    (evExample.fields.map Prod.fst).Nodup ∧
    ((TracingMetadataFields.fields_from_event evExample.fields).keys.card
        = evExample.fields.length ∧
      (∀ p ∈ evExample.fields,
        (TracingMetadataFields.fields_from_event evExample.fields).lookup p.1
          = some (format_debug p.2)) ∧
      TracingMetadataFields.fields_from_event [] = (∅ : FieldMap)) :=
  ⟨by decide, field_extraction_totality evExample.fields (by decide)⟩

/-- Claim C10: for any visit list, duplicated names included, lookup in the
extracted mapping returns the rendering carried by the LAST visit with that
name (later visits silently overwrite earlier ones), and the entry count is
the number of distinct visited names, not the number of visits. -/
theorem duplicate_field_overwrite (l : List (String × DebugValue)) (k : String) :
    (TracingMetadataFields.fields_from_event l).lookup k = lastVisited k l ∧
    (TracingMetadataFields.fields_from_event l).keys.card
      = (l.map Prod.fst).dedup.length := by
  refine ⟨lookup_fields_from_event l k, ?_⟩
  rw [keys_fields_from_event, List.card_toFinset]

end TracingBridge
